import Mathlib

/-
Verification of the electrostatic-field simulator (Electric-field repository).
Shallow embedding of coordinates.py, charge.py, physics.py, particle.py,
entity.py and simulation.py over the reals, with Python-style fallible
division modelled in an Except monad.
-/

open scoped Classical

noncomputable section

namespace EField

/-- Python runtime errors that the embedded code can raise. The source raises
only ZeroDivisionError on the modelled paths (coordinates.py line 104 and
plain float division). -/
inductive PyError where
  | zeroDivision : PyError
deriving DecidableEq

/-- Python float division a / b: raises ZeroDivisionError when b is 0. -/
def fdiv (a b : ℝ) : Except PyError ℝ :=
  if b = 0 then .error .zeroDivision else .ok (a / b)

/-- Point2D from coordinates.py: a point in 2D space. -/
@[ext]
structure Point2D where
  x : ℝ
  y : ℝ

/-- Vector2D from coordinates.py: a 2D vector. -/
@[ext]
structure Vector2D where
  x : ℝ
  y : ℝ

/-- Vector2D.normalize: unit vector in the same direction; returns the zero
vector when the magnitude is 0 (coordinates.py lines 30-46). -/
def Vector2D.normalize (v : Vector2D) : Vector2D :=
  let magnitude := Real.sqrt (v.x ^ 2 + v.y ^ 2)
  if 0 < magnitude then ⟨v.x / magnitude, v.y / magnitude⟩
  else ⟨0, 0⟩

/-- Vector2D.normalize with the two inner float divisions modelled as fallible
Python divisions (x / magnitude, y / magnitude). -/
def Vector2D.normalizeE (v : Vector2D) : Except PyError Vector2D :=
  let magnitude := Real.sqrt (v.x ^ 2 + v.y ^ 2)
  if 0 < magnitude then do
    let nx ← fdiv v.x magnitude
    let ny ← fdiv v.y magnitude
    return ⟨nx, ny⟩
  else return ⟨0, 0⟩

/-- Vector2D.from_points: the vector going from p1 to p2. -/
def Vector2D.from_points (p1 p2 : Point2D) : Vector2D :=
  ⟨p2.x - p1.x, p2.y - p1.y⟩

/-- Vector2D.__mul__ (and __rmul__): scaling by a scalar. -/
def Vector2D.mul (v : Vector2D) (scalar : ℝ) : Vector2D :=
  ⟨v.x * scalar, v.y * scalar⟩

/-- Vector2D.__truediv__ as a total function over ℝ (used only where the
divisor is known nonzero; the fallible version is Vector2D.divE). -/
def Vector2D.div (v : Vector2D) (scalar : ℝ) : Vector2D :=
  ⟨v.x / scalar, v.y / scalar⟩

/-- Vector2D.__truediv__: raises ZeroDivisionError when the scalar is 0
(coordinates.py lines 92-106). -/
def Vector2D.divE (v : Vector2D) (scalar : ℝ) : Except PyError Vector2D :=
  if scalar = 0 then .error .zeroDivision
  else .ok ⟨v.x / scalar, v.y / scalar⟩

/-- Vector2D.__add__: componentwise sum. -/
def Vector2D.add (v other : Vector2D) : Vector2D :=
  ⟨v.x + other.x, v.y + other.y⟩

/-- Vector2D.__sub__: componentwise difference. -/
def Vector2D.sub (v other : Vector2D) : Vector2D :=
  ⟨v.x - other.x, v.y - other.y⟩

/-- Charge from charge.py: value [C], position, permittivity [F/m]. -/
structure Charge where
  value : ℝ
  position : Point2D
  permittivity : ℝ

/-- The Coulomb constant stored by Charge.__init__:
k = 1 / (4 * pi * permittivity). It is fixed at construction (the fields it
depends on are never mutated), so it is modelled as a derived function. -/
def Charge.k (c : Charge) : ℝ :=
  1 / (4 * Real.pi * c.permittivity)

/-- Charge.__init__ with the float division computing k modelled as a fallible
Python division: 1 / (4 * pi * permittivity) raises ZeroDivisionError exactly
when the denominator is 0. No other validation happens in the constructor. -/
def Charge.init (value : ℝ) (position : Point2D) (permittivity : ℝ) :
    Except PyError Charge :=
  if 4 * Real.pi * permittivity = 0 then .error .zeroDivision
  else .ok ⟨value, position, permittivity⟩

/-- Charge.calculate_field from charge.py lines 32-63: the electric field this
charge induces at other_position. -/
def Charge.calculate_field (c : Charge) (other_position : Point2D) : Vector2D :=
  let direction := Vector2D.from_points c.position other_position
  let distance_squared := direction.x ^ 2 + direction.y ^ 2
  if distance_squared = 0 then ⟨0, 0⟩
  else
    let unit_vector := direction.normalize
    let field_magnitude := c.k * c.value / distance_squared
    unit_vector.mul field_magnitude

/-- Charge.calculate_field with every Python division modelled as fallible:
the two divisions inside normalize and the division by distance_squared. -/
def Charge.calculate_fieldE (c : Charge) (other_position : Point2D) :
    Except PyError Vector2D :=
  let direction := Vector2D.from_points c.position other_position
  let distance_squared := direction.x ^ 2 + direction.y ^ 2
  if distance_squared = 0 then return ⟨0, 0⟩
  else do
    let unit_vector ← direction.normalizeE
    let field_magnitude ← fdiv (c.k * c.value) distance_squared
    return unit_vector.mul field_magnitude

/-- ChargeLogic from physics.py lines 1-45: the same point-charge field
computation, with the charge position supplied per call. -/
structure ChargeLogic where
  value : ℝ
  permittivity : ℝ

/-- The Coulomb constant stored by ChargeLogic.__init__. -/
def ChargeLogic.k (cl : ChargeLogic) : ℝ :=
  1 / (4 * Real.pi * cl.permittivity)

/-- ChargeLogic.calculate_field from physics.py lines 24-45. -/
def ChargeLogic.calculate_field (cl : ChargeLogic)
    (position other_position : Point2D) : Vector2D :=
  let direction := Vector2D.from_points position other_position
  let distance_squared := direction.x ^ 2 + direction.y ^ 2
  if distance_squared = 0 then ⟨0, 0⟩
  else
    let unit_vector := direction.normalize
    let field_magnitude := cl.k * cl.value / distance_squared
    unit_vector.mul field_magnitude

/-- ParticleLogic from physics.py lines 48-80: velocity, external charges,
slow factor, mass and charge, assigned with no validation. The external
charge list is kept abstract (its elements are entity wrappers). -/
structure ParticleLogic (χ : Type) where
  velocity : Vector2D
  external_charges : List χ
  slow_factor : ℝ
  mass : ℝ
  charge : ℝ

/-- ParticleLogic.__init__ as written in physics.py lines 65-80: plain field
assignment, no fallible operation and no parameter check of any kind, hence
modelled as always returning ok. -/
def ParticleLogic.initE {χ : Type} (velocity : Vector2D)
    (external_charges : List χ) (slow_factor mass charge : ℝ) :
    Except PyError (ParticleLogic χ) :=
  .ok ⟨velocity, external_charges, slow_factor, mass, charge⟩

/-- Particle from particle.py: position, velocity, external charges, the
slow factor, mass, charge, and the visual state (radius and the drawn point)
inherited from the VisualPoint2D base. -/
structure Particle where
  position : Point2D
  velocity : Vector2D
  external_charges : List Charge
  slow_factor : ℝ
  mass : ℝ
  charge : ℝ
  radius : ℝ
  point : Point2D

/-- Particle.__init__ from particle.py lines 18-37: stores position, velocity
and charges, sets slow_factor = 10e4 and the default mass 1 and charge 0.
The radius comes from the visual base class and is kept as a parameter. -/
def Particle.init (position : Point2D) (velocity : Vector2D)
    (external_charges : List Charge) (radius : ℝ) : Particle :=
  { position := position
    velocity := velocity
    external_charges := external_charges
    slow_factor := 100000
    mass := 1
    charge := 0
    radius := radius
    point := position }

/-- Electron.__init__ from particle.py lines 110-130: overrides mass, charge
and radius. -/
def Electron.init (position : Point2D) (velocity : Vector2D)
    (external_charges : List Charge) : Particle :=
  { Particle.init position velocity external_charges 7 with
    mass := 9.109e-31
    charge := -1.602e-19
    radius := 7 }

/-- Proton.__init__ from particle.py lines 133-151. -/
def Proton.init (position : Point2D) (velocity : Vector2D)
    (external_charges : List Charge) : Particle :=
  { Particle.init position velocity external_charges 9 with
    mass := 1.673e-27
    charge := 1.602e-19
    radius := 9 }

/-- Neutron.__init__ from particle.py lines 154-173: zero charge. -/
def Neutron.init (position : Point2D) (velocity : Vector2D)
    (external_charges : List Charge) : Particle :=
  { Particle.init position velocity external_charges 9 with
    mass := 1.675e-27
    charge := 0
    radius := 9 }

/-- Particle.calculate_force from particle.py lines 39-57: sum the field of
every external charge at the particle position, then F = qE (the Python
expression charge * field runs Vector2D.__rmul__, i.e. field scaled by q). -/
def Particle.calculate_force (p : Particle) : Vector2D :=
  let field := p.external_charges.foldl
    (fun (acc : Vector2D) (c : Charge) =>
      acc.add (c.calculate_field ⟨p.position.x, p.position.y⟩))
    (⟨0, 0⟩ : Vector2D)
  field.mul p.charge

/-- Particle.calculate_force with fallible divisions threaded through. -/
def Particle.calculate_forceE (p : Particle) : Except PyError Vector2D := do
  let field ← p.external_charges.foldlM
    (fun (acc : Vector2D) (c : Charge) => do
      let f ← c.calculate_fieldE ⟨p.position.x, p.position.y⟩
      return acc.add f)
    (⟨0, 0⟩ : Vector2D)
  return field.mul p.charge

/-- Particle.move from particle.py lines 59-85: scale dt by the slow factor,
compute acceleration = net_force / mass, update the velocity, then update the
position with the already-updated velocity. -/
def Particle.move (p : Particle) (net_force : Vector2D) (dt : ℝ) : Particle :=
  let dt' := dt / p.slow_factor
  let acceleration := net_force.div p.mass
  let velocity := p.velocity.add (acceleration.mul dt')
  let displacement := velocity.mul dt'
  { p with
    velocity := velocity
    position := ⟨p.position.x + displacement.x, p.position.y + displacement.y⟩ }

/-- Particle.move with the two fallible divisions (dt / slow_factor and the
vector division net_force / mass) made explicit. -/
def Particle.moveE (p : Particle) (net_force : Vector2D) (dt : ℝ) :
    Except PyError Particle := do
  let dt' ← fdiv dt p.slow_factor
  let acceleration ← net_force.divE p.mass
  let velocity := p.velocity.add (acceleration.mul dt')
  let displacement := velocity.mul dt'
  return { p with
    velocity := velocity
    position := ⟨p.position.x + displacement.x, p.position.y + displacement.y⟩ }

/-- The out-of-bounds test of particle.py lines 94-99 applied to a particle
state (true when any of the four conditions holds). -/
def Particle.escaped (p : Particle) : Prop :=
  p.position.x < 0 - p.radius ∨ p.position.x > 800 + p.radius ∨
  p.position.y < 0 - p.radius ∨ p.position.y > 800 + p.radius

/-- Particle.update from particle.py lines 87-107: move under the computed
force, then return False when out of bounds (the drawn point is not synced),
else sync the drawn point and return True. -/
def Particle.update (p : Particle) (dt : ℝ) : Particle × Bool :=
  let p' := p.move p.calculate_force dt
  if p'.escaped then (p', false)
  else ({ p' with point := p'.position }, true)

/-- Particle.update with fallible divisions threaded through. -/
def Particle.updateE (p : Particle) (dt : ℝ) : Except PyError (Particle × Bool) := do
  let f ← p.calculate_forceE
  let p' ← p.moveE f dt
  if p'.escaped then return (p', false)
  else return ({ p' with point := p'.position }, true)

/-- An auxiliary key/value dictionary (a Python dict with string keys); the
value type is a parameter since the elements store heterogeneous data. -/
abbrev AuxMap (α : Type) : Type := List (String × α)

/-- First-match lookup in an auxiliary dictionary (Python d[k] / k in d). -/
def auxLookup {α : Type} (k : String) : AuxMap α → Option α
  | [] => none
  | kv :: rest => if kv.1 = k then some kv.2 else auxLookup k rest

/-- Python dict.update semantics: keys already present keep their slot but
take the value from the new dict; keys only in the new dict are appended in
order. -/
def dictUpdate {α : Type} (base new : AuxMap α) : AuxMap α :=
  base.map (fun kv => (kv.1, (auxLookup kv.1 new).getD kv.2)) ++
    new.filter (fun kv => (auxLookup kv.1 base).isNone)

/-- The result of one logic element run in entity.py: the optional "position"
entry of the returned dict (extracted and deleted by Entity.logic) plus the
remaining key/value entries. -/
structure RunData (α : Type) where
  newPos : Option Point2D
  aux : AuxMap α

/-- A logic element as used by Entity.logic: run(position=..., **kwargs)
returns a dict that may carry a new position plus auxiliary entries. -/
structure LogicElem (α : Type) where
  run : Point2D → AuxMap α → RunData α

/-- A visual element held by an Entity; its drawing is external to the core,
so only an identity tag is modelled. -/
structure VisualElem where
  tag : ℕ

/-- Entity from entity.py lines 1-24: visual elements, logic elements, the
dynamic flag and the position. -/
structure Entity (α : Type) where
  visual_elements : List VisualElem
  logic_elements : List (LogicElem α)
  dynamic : Bool
  position : Point2D

/-- The loop body of Entity.logic folded over the logic elements: run the
element at the current position, adopt an emitted position immediately, and
merge the remaining entries into the accumulated dict. -/
def Entity.logicFold {α : Type} (elems : List (LogicElem α)) (ctx : AuxMap α)
    (st : Point2D × AuxMap α) : Point2D × AuxMap α :=
  elems.foldl
    (fun st e =>
      let rd := e.run st.1 ctx
      (rd.newPos.getD st.1, dictUpdate st.2 rd.aux))
    st

/-- Entity.logic from entity.py lines 44-60: thread the position through the
logic elements starting from an empty return dict; the entity position is
left at the final threaded value. -/
def Entity.logic {α : Type} (e : Entity α) (ctx : AuxMap α) :
    Entity α × AuxMap α :=
  let st := Entity.logicFold e.logic_elements ctx (e.position, [])
  ({ e with position := st.1 }, st.2)

/-- A record of one draw invocation made by Entity.visual: the element, the
position it received, the logic data and the ambient kwargs. -/
structure DrawCall (α : Type) where
  elem : VisualElem
  position : Point2D
  data : AuxMap α
  ctx : AuxMap α

/-- Entity.visual from entity.py lines 62-69: call draw on every visual
element with the current position; modelled as the list of draw invocations
it performs. -/
def Entity.visualRun {α : Type} (e : Entity α) (data ctx : AuxMap α) :
    List (DrawCall α) :=
  e.visual_elements.map (fun v => ⟨v, e.position, data, ctx⟩)

/-- The value returned by Entity.update: either the destroy signal dict or
the logic data dict. -/
inductive UpdateOut (α : Type) where
  | destroy : UpdateOut α
  | data : AuxMap α → UpdateOut α

/-- Entity.update from entity.py lines 25-42: run the logic, then draw the
visual elements, then report destroy when the position left the ±10e3 bound,
otherwise report the logic data. The draw invocations are returned as a
trace. -/
def Entity.update {α : Type} (e : Entity α) (ctx : AuxMap α) :
    Entity α × UpdateOut α × List (DrawCall α) :=
  let st := e.logic ctx
  let draws := st.1.visualRun st.2 ctx
  (st.1,
   if 10000 < |st.1.position.x| ∨ 10000 < |st.1.position.y| then .destroy
   else .data st.2,
   draws)

/-- A static object held in SimulationWindow.objects; it is only ever drawn
(pixel output is external), so only an identity tag is modelled. -/
structure StaticObj where
  tag : ℕ

/-- SimulationWindow state from simulation.py: the charge list, the static
object list, the dynamic object list and the dirty flag of the pre-rendered
static layer. -/
structure SimulationWindow where
  charges : List Charge
  objects : List StaticObj
  dynamic_objects : List Particle
  static_layer_dirty : Bool

/-- SimulationWindow.add_object from simulation.py lines 174-177: append to
the static collection and mark the static layer dirty. -/
def SimulationWindow.add_object (w : SimulationWindow) (obj : StaticObj) :
    SimulationWindow :=
  { w with objects := w.objects ++ [obj], static_layer_dirty := true }

/-- SimulationWindow.add_dynamic_object from simulation.py lines 179-181. -/
def SimulationWindow.add_dynamic_object (w : SimulationWindow) (p : Particle) :
    SimulationWindow :=
  { w with dynamic_objects := w.dynamic_objects ++ [p] }

/-- SimulationWindow.clear_dynamic_objects from simulation.py lines 183-185. -/
def SimulationWindow.clear_dynamic_objects (w : SimulationWindow) :
    SimulationWindow :=
  { w with dynamic_objects := [] }

/-- What one pass of the render/update section of SimulationWindow.run did:
whether the static layer was rebuilt, which static objects were drawn, which
objects had update invoked on them, and which updated objects were drawn. -/
structure FrameLog where
  rebuilt_static : Bool
  static_draws : List StaticObj
  updated : List Particle
  rendered : List Particle

/-- The per-iteration render/update section of SimulationWindow.run
(simulation.py lines 153-167), with event handling external: rebuild the
static layer only when dirty (clearing the flag there), then call update
exactly once on each dynamic object in order and draw those that returned
True. No object is ever removed here. -/
def SimulationWindow.frame (w : SimulationWindow) (dt : ℝ) :
    SimulationWindow × FrameLog :=
  let rebuilt := w.static_layer_dirty
  let static_draws := if w.static_layer_dirty then w.objects else []
  let dirty' := if w.static_layer_dirty then false else w.static_layer_dirty
  let results := w.dynamic_objects.map (fun p => p.update dt)
  ({ w with
      dynamic_objects := results.map Prod.fst
      static_layer_dirty := dirty' },
   { rebuilt_static := rebuilt
     static_draws := static_draws
     updated := w.dynamic_objects
     rendered := (results.filter Prod.snd).map Prod.fst })

/-- The field formula exactly as the specification states it: zero at the
source position, else (k * Q / |d|^2) scaling the unit vector of d, where d
is the vector from the source to the query point. -/
def coulombFieldSpec (k Q : ℝ) (src query : Point2D) : Vector2D :=
  let d := Vector2D.from_points src query
  if query = src then ⟨0, 0⟩
  else d.normalize.mul (k * Q / (d.x ^ 2 + d.y ^ 2))

/-- The semi-implicit (symplectic) Euler step exactly as the specification
states it: scaledDt = dt / s, a = F / m, v' = v + a * scaledDt, and the new
position p + v' * scaledDt computed from the already-updated velocity. -/
def semiImplicitEulerSpec (pos : Point2D) (vel F : Vector2D) (m s dt : ℝ) :
    Point2D × Vector2D :=
  let scaledDt := dt / s
  let a : Vector2D := ⟨F.x / m, F.y / m⟩
  let v' : Vector2D := ⟨vel.x + a.x * scaledDt, vel.y + a.y * scaledDt⟩
  (⟨pos.x + v'.x * scaledDt, pos.y + v'.y * scaledDt⟩, v')

/-- A helper expressing the field of a point charge directly on the component
differences dx, dy of the query point minus the source point. -/
def coulombComponents (k Q dx dy : ℝ) : Vector2D :=
  if dx ^ 2 + dy ^ 2 = 0 then ⟨0, 0⟩
  else
    ⟨dx / Real.sqrt (dx ^ 2 + dy ^ 2) * (k * Q / (dx ^ 2 + dy ^ 2)),
     dy / Real.sqrt (dx ^ 2 + dy ^ 2) * (k * Q / (dx ^ 2 + dy ^ 2))⟩

/-- An electron spawned far outside the viewport bound moving further right,
as SimulationWindow would spawn it (simulation.py uses Electron with the
live charge list); used to exercise the bounds policy of the run loop. -/
def escParticle : Particle :=
  Electron.init ⟨20000, 0⟩ ⟨100000, 0⟩ []

/-- A window whose dynamic set holds only escParticle. -/
def escWindow : SimulationWindow :=
  { charges := []
    objects := []
    dynamic_objects := [escParticle]
    static_layer_dirty := true }

/-- A sample particle with one external charge, used to instantiate theorems
with hypotheses at a concrete input. -/
def sampleParticle : Particle :=
  { position := ⟨3, 0⟩
    velocity := ⟨1, 2⟩
    external_charges := [⟨2, ⟨0, 0⟩, 1⟩]
    slow_factor := 2
    mass := 4
    charge := 5
    radius := 7
    point := ⟨3, 0⟩ }

/-- A concrete neutron with one external charge (a zero-charge particle). -/
def sampleNeutron : Particle :=
  Neutron.init ⟨5, 5⟩ ⟨1, 2⟩ [⟨3, ⟨0, 0⟩, 1⟩]

/-- A concrete entity with one visual element and no logic elements, used to
exercise the draw behavior of Entity.update. -/
def sampleEntity : Entity Unit :=
  { visual_elements := [⟨0⟩]
    logic_elements := []
    dynamic := true
    position := ⟨0, 0⟩ }

/-
Theorems.
-/

/-- A sum of two real squares vanishes exactly when both terms vanish. -/
theorem sq_add_sq_eq_zero (a b : ℝ) :
    a ^ 2 + b ^ 2 = 0 ↔ a = 0 ∧ b = 0 := by
  constructor
  · intro h
    constructor
    · have ha : a ^ 2 = 0 := by nlinarith [sq_nonneg a, sq_nonneg b]
      exact pow_eq_zero_iff (two_ne_zero) |>.mp ha
    · have hb : b ^ 2 = 0 := by nlinarith [sq_nonneg a, sq_nonneg b]
      exact pow_eq_zero_iff (two_ne_zero) |>.mp hb
  · rintro ⟨ha, hb⟩
    simp [ha, hb]

/-- normalizeE never fails and agrees with the guarded pure normalize. -/
theorem normalizeE_ok (v : Vector2D) :
    v.normalizeE = .ok v.normalize := by
  unfold Vector2D.normalizeE Vector2D.normalize
  by_cases h : 0 < Real.sqrt (v.x ^ 2 + v.y ^ 2)
  · have hne : Real.sqrt (v.x ^ 2 + v.y ^ 2) ≠ 0 := ne_of_gt h
    simp only [h, if_true, fdiv, hne, if_false, if_neg hne]
    rfl
  · simp only [h, if_false, if_neg h]
    rfl

/-- calculate_field written on the component differences of the two points. -/
theorem calculate_field_eq_components (c : Charge) (q : Point2D) :
    c.calculate_field q =
      coulombComponents c.k c.value (q.x - c.position.x) (q.y - c.position.y) := by
  unfold Charge.calculate_field coulombComponents Vector2D.from_points
    Vector2D.normalize Vector2D.mul
  by_cases h : (q.x - c.position.x) ^ 2 + (q.y - c.position.y) ^ 2 = 0
  · simp [h]
  · have hpos : 0 < (q.x - c.position.x) ^ 2 + (q.y - c.position.y) ^ 2 :=
      lt_of_le_of_ne (by positivity) (Ne.symm h)
    have hs : 0 < Real.sqrt ((q.x - c.position.x) ^ 2 + (q.y - c.position.y) ^ 2) :=
      Real.sqrt_pos.mpr hpos
    simp [h, hs]

/-- calculate_fieldE never fails and computes the pure calculate_field. -/
theorem calculate_fieldE_ok (c : Charge) (q : Point2D) :
    c.calculate_fieldE q = .ok (c.calculate_field q) := by
  unfold Charge.calculate_fieldE Charge.calculate_field
  by_cases h : (Vector2D.from_points c.position q).x ^ 2 +
      (Vector2D.from_points c.position q).y ^ 2 = 0
  · simp only [h, if_true, if_pos h]
    rfl
  · simp only [h, if_false, if_neg h, normalizeE_ok, fdiv]
    rfl

/-- C1: for every Charge (value Q, position p, permittivity eps, with
k = 1/(4*pi*eps)) and every query point q, calculate_field returns the zero
vector exactly when q = p (distance squared 0), and otherwise
(k*Q/|d|^2) * normalize(d) with d the vector from p to q; there is no other
branch, no division can fail (the fallible-division version always returns
ok), and the physics.py ChargeLogic computes the same field. -/
theorem charge_field_correct (c : Charge) (q : Point2D) :
    c.calculate_field q = coulombFieldSpec c.k c.value c.position q ∧
    c.calculate_fieldE q = .ok (c.calculate_field q) ∧
    ChargeLogic.calculate_field ⟨c.value, c.permittivity⟩ c.position q =
      c.calculate_field q ∧
    c.k = 1 / (4 * Real.pi * c.permittivity) := by
  refine ⟨?_, calculate_fieldE_ok c q, ?_, rfl⟩
  · unfold Charge.calculate_field coulombFieldSpec Vector2D.from_points
    by_cases h : (q.x - c.position.x) ^ 2 + (q.y - c.position.y) ^ 2 = 0
    · have hq : q = c.position := by
        obtain ⟨hx, hy⟩ := (sq_add_sq_eq_zero _ _).mp h
        exact Point2D.ext (sub_eq_zero.mp hx) (sub_eq_zero.mp hy)
      simp [h, hq]
    · have hq : q ≠ c.position := by
        intro he
        apply h
        simp [he]
      simp [h, hq]
  · unfold ChargeLogic.calculate_field Charge.calculate_field
    simp [ChargeLogic.k, Charge.k]

/-- C2: one integration step first computes scaledDt = dt / slow_factor and
acceleration = F / m, updates the velocity to v + a * scaledDt, and then
updates the position with the already-updated velocity (semi-implicit Euler),
exactly as the specification formula states. -/
theorem particle_move_symplectic (p : Particle) (net_force : Vector2D) (dt : ℝ)
    (hm : 0 < p.mass) (hs : 0 < p.slow_factor) :
    ((p.move net_force dt).position, (p.move net_force dt).velocity) =
      semiImplicitEulerSpec p.position p.velocity net_force p.mass
        p.slow_factor dt := by
  unfold Particle.move semiImplicitEulerSpec Vector2D.div Vector2D.add
    Vector2D.mul
  rfl

/-- Witness for C2 at a concrete particle, force and timestep. -/
theorem particle_move_symplectic_witness :
    0 < sampleParticle.mass ∧ 0 < sampleParticle.slow_factor ∧
    ((sampleParticle.move ⟨8, 0⟩ 2).position,
      (sampleParticle.move ⟨8, 0⟩ 2).velocity) =
      semiImplicitEulerSpec sampleParticle.position sampleParticle.velocity
        ⟨8, 0⟩ sampleParticle.mass sampleParticle.slow_factor 2 :=
  ⟨by norm_num [sampleParticle], by norm_num [sampleParticle],
   particle_move_symplectic sampleParticle ⟨8, 0⟩ 2
     (by norm_num [sampleParticle]) (by norm_num [sampleParticle])⟩

/-- Bind of an ok value in the Except monad reduces to the continuation. -/
theorem except_bind_ok {α β : Type} (a : α) (f : α → Except PyError β) :
    (Except.ok a >>= f) = f a := rfl

/-- pure in the Except monad is the ok constructor. -/
theorem except_pure_eq_ok {α : Type} (a : α) :
    (pure a : Except PyError α) = Except.ok a := rfl

/-- The field-summing fold with fallible divisions never fails and computes
the pure fold. -/
theorem foldFieldE_ok (q : Point2D) (l : List Charge) (acc : Vector2D) :
    (l.foldlM
      (fun (acc : Vector2D) (c : Charge) => do
        let f ← c.calculate_fieldE q
        return acc.add f) acc : Except PyError Vector2D)
    = .ok (l.foldl
        (fun (acc : Vector2D) (c : Charge) =>
          acc.add (c.calculate_field q)) acc) := by
  induction l generalizing acc with
  | nil => rfl
  | cons c rest ih =>
    rw [List.foldlM_cons, calculate_fieldE_ok, except_bind_ok,
      except_pure_eq_ok, except_bind_ok, List.foldl_cons]
    exact ih _

/-- calculate_forceE never fails and computes the pure calculate_force. -/
theorem calculate_forceE_ok (p : Particle) :
    p.calculate_forceE = .ok p.calculate_force := by
  unfold Particle.calculate_forceE Particle.calculate_force
  rw [foldFieldE_ok]
  rfl

/-- moveE never fails when mass and slow factor are nonzero, and computes the
pure move. -/
theorem moveE_ok (p : Particle) (net_force : Vector2D) (dt : ℝ)
    (hm : p.mass ≠ 0) (hs : p.slow_factor ≠ 0) :
    p.moveE net_force dt = .ok (p.move net_force dt) := by
  unfold Particle.moveE Particle.move fdiv Vector2D.divE Vector2D.div
  simp only [if_neg hs, if_neg hm, except_bind_ok]
  rfl

/-- C5: given a pre-validated particle (mass and slow factor strictly
positive), the per-tick path is total: update with every Python division
modelled as fallible always returns ok (never raises), field evaluation never
fails for any charge and query point, and normalize never fails for any
vector. -/
theorem tick_path_total (p : Particle) (dt : ℝ)
    (hm : 0 < p.mass) (hs : 0 < p.slow_factor) :
    p.updateE dt = .ok (p.update dt) ∧
    (∀ (c : Charge) (q : Point2D),
      c.calculate_fieldE q = .ok (c.calculate_field q)) ∧
    (∀ v : Vector2D, v.normalizeE = .ok v.normalize) := by
  refine ⟨?_, fun c q => calculate_fieldE_ok c q, fun v => normalizeE_ok v⟩
  unfold Particle.updateE Particle.update
  rw [calculate_forceE_ok, except_bind_ok,
    moveE_ok p _ dt (ne_of_gt hm) (ne_of_gt hs), except_bind_ok]
  by_cases h : (p.move p.calculate_force dt).escaped
  · rw [if_pos h, if_pos h]
    rfl
  · rw [if_neg h, if_neg h]
    rfl

/-- Witness for C5 at a concrete particle with a nonempty charge list. -/
theorem tick_path_total_witness :
    0 < sampleParticle.mass ∧ 0 < sampleParticle.slow_factor ∧
    sampleParticle.updateE 1 = .ok (sampleParticle.update 1) :=
  ⟨by norm_num [sampleParticle], by norm_num [sampleParticle],
   (tick_path_total sampleParticle 1 (by norm_num [sampleParticle])
     (by norm_num [sampleParticle])).1⟩

/-- A particle under zero net force keeps its velocity and drifts by
velocity * (dt / slow_factor). -/
theorem move_zero_force (p : Particle) (dt : ℝ) :
    (p.move ⟨0, 0⟩ dt).velocity = p.velocity ∧
    (p.move ⟨0, 0⟩ dt).position =
      ⟨p.position.x + p.velocity.x * (dt / p.slow_factor),
       p.position.y + p.velocity.y * (dt / p.slow_factor)⟩ := by
  unfold Particle.move Vector2D.div Vector2D.add Vector2D.mul
  constructor
  · ext <;> simp
  · ext <;> simp

/-- A particle with an empty external charge list feels zero force. -/
theorem calculate_force_nil (p : Particle) (h : p.external_charges = []) :
    p.calculate_force = ⟨0, 0⟩ := by
  unfold Particle.calculate_force
  rw [h]
  simp [Vector2D.mul]

/-- A particle with zero charge feels zero force whatever the charges are. -/
theorem calculate_force_zero_charge (p : Particle) (hq : p.charge = 0) :
    p.calculate_force = ⟨0, 0⟩ := by
  unfold Particle.calculate_force
  simp [Vector2D.mul, hq]

/-- Both branches of update keep the velocity and position of the move. -/
theorem update_fst_fields (p : Particle) (dt : ℝ) :
    (p.update dt).1.velocity = (p.move p.calculate_force dt).velocity ∧
    (p.update dt).1.position = (p.move p.calculate_force dt).position := by
  unfold Particle.update
  by_cases h : (p.move p.calculate_force dt).escaped
  · rw [if_pos h]
    exact ⟨rfl, rfl⟩
  · rw [if_neg h]
    exact ⟨rfl, rfl⟩

/-- C10: a particle whose charge is exactly 0 (e.g. a Neutron) feels zero
force regardless of its position and of the external charge list, so update
leaves its velocity unchanged and advances its position by exactly
velocity * (dt / slow_factor). The nonzero-mass and nonzero-slow-factor
hypotheses mirror the domain on which the Python division is defined. -/
theorem zero_charge_drift (p : Particle) (dt : ℝ)
    (hq : p.charge = 0) (hm : p.mass ≠ 0) (hs : p.slow_factor ≠ 0) :
    p.calculate_force = ⟨0, 0⟩ ∧
    (p.update dt).1.velocity = p.velocity ∧
    (p.update dt).1.position =
      ⟨p.position.x + p.velocity.x * (dt / p.slow_factor),
       p.position.y + p.velocity.y * (dt / p.slow_factor)⟩ := by
  have hforce := calculate_force_zero_charge p hq
  have hfields := update_fst_fields p dt
  have hdrift := move_zero_force p dt
  rw [hforce] at hfields
  exact ⟨hforce, hfields.1.trans hdrift.1, hfields.2.trans hdrift.2⟩

/-- Witness for C10 at a concrete Neutron with a nonempty charge list. -/
theorem zero_charge_drift_witness :
    sampleNeutron.charge = 0 ∧ sampleNeutron.mass ≠ 0 ∧
    sampleNeutron.slow_factor ≠ 0 ∧
    (sampleNeutron.update 3).1.velocity = sampleNeutron.velocity :=
  ⟨rfl, by norm_num [sampleNeutron, Neutron.init, Particle.init],
   by norm_num [sampleNeutron, Neutron.init, Particle.init],
   (zero_charge_drift sampleNeutron 3 rfl
     (by norm_num [sampleNeutron, Neutron.init, Particle.init])
     (by norm_num [sampleNeutron, Neutron.init, Particle.init])).2.1⟩

/-- Coulomb components at opposite displacement vectors cancel exactly. -/
theorem coulombComponents_add_neg (k Q dx dy : ℝ) :
    (coulombComponents k Q dx dy).add (coulombComponents k Q (-dx) (-dy)) =
      ⟨0, 0⟩ := by
  unfold coulombComponents Vector2D.add
  have hsq : (-dx) ^ 2 + (-dy) ^ 2 = dx ^ 2 + dy ^ 2 := by ring
  by_cases h : dx ^ 2 + dy ^ 2 = 0
  · simp only [hsq, h, if_pos, if_true]
    norm_num
  · simp only [hsq, if_neg h]
    ext
    · show dx / Real.sqrt (dx ^ 2 + dy ^ 2) * (k * Q / (dx ^ 2 + dy ^ 2)) +
        -dx / Real.sqrt (dx ^ 2 + dy ^ 2) * (k * Q / (dx ^ 2 + dy ^ 2)) = 0
      ring
    · show dy / Real.sqrt (dx ^ 2 + dy ^ 2) * (k * Q / (dx ^ 2 + dy ^ 2)) +
        -dy / Real.sqrt (dx ^ 2 + dy ^ 2) * (k * Q / (dx ^ 2 + dy ^ 2)) = 0
      ring

/-- Two equal charges whose displacements to a query point are exact
opposites produce cancelling fields there. -/
theorem midpoint_field_cancel (Q perm : ℝ) (p1 p2 q : Point2D)
    (hqx : q.x - p2.x = -(q.x - p1.x)) (hqy : q.y - p2.y = -(q.y - p1.y)) :
    (Charge.calculate_field ⟨Q, p1, perm⟩ q).add
      (Charge.calculate_field ⟨Q, p2, perm⟩ q) = ⟨0, 0⟩ := by
  rw [calculate_field_eq_components, calculate_field_eq_components]
  show (coulombComponents (Charge.k ⟨Q, p1, perm⟩) Q (q.x - p1.x) (q.y - p1.y)).add
    (coulombComponents (Charge.k ⟨Q, p2, perm⟩) Q (q.x - p2.x) (q.y - p2.y)) = ⟨0, 0⟩
  rw [hqx, hqy]
  have hk : Charge.k ⟨Q, p2, perm⟩ = Charge.k ⟨Q, p1, perm⟩ := rfl
  rw [hk]
  exact coulombComponents_add_neg (Charge.k ⟨Q, p1, perm⟩) Q _ _

/-- C8: two charges of equal value and permittivity placed symmetrically
about a midpoint produce an exactly zero net (superposed) field at that
midpoint; in particular +Q at (0,0) and +Q at (10,0) give the zero vector at
(5,0); and the net force computed by a particle located at that midpoint with
those two charges as its external charge list is the zero vector. -/
theorem superposition_midpoint_cancel (Q perm : ℝ) (p1 p2 : Point2D)
    (vel : Vector2D) (m s qc r : ℝ) :
    (Charge.calculate_field ⟨Q, p1, perm⟩
        ⟨(p1.x + p2.x) / 2, (p1.y + p2.y) / 2⟩).add
      (Charge.calculate_field ⟨Q, p2, perm⟩
        ⟨(p1.x + p2.x) / 2, (p1.y + p2.y) / 2⟩) = ⟨0, 0⟩ ∧
    Particle.calculate_force
      { position := ⟨(p1.x + p2.x) / 2, (p1.y + p2.y) / 2⟩
        velocity := vel
        external_charges := [⟨Q, p1, perm⟩, ⟨Q, p2, perm⟩]
        slow_factor := s
        mass := m
        charge := qc
        radius := r
        point := ⟨(p1.x + p2.x) / 2, (p1.y + p2.y) / 2⟩ } = ⟨0, 0⟩ ∧
    (Charge.calculate_field ⟨Q, ⟨0, 0⟩, perm⟩ ⟨5, 0⟩).add
      (Charge.calculate_field ⟨Q, ⟨10, 0⟩, perm⟩ ⟨5, 0⟩) = ⟨0, 0⟩ := by
  have hmid : (Charge.calculate_field ⟨Q, p1, perm⟩
      ⟨(p1.x + p2.x) / 2, (p1.y + p2.y) / 2⟩).add
      (Charge.calculate_field ⟨Q, p2, perm⟩
        ⟨(p1.x + p2.x) / 2, (p1.y + p2.y) / 2⟩) = ⟨0, 0⟩ := by
    apply midpoint_field_cancel
    · show (p1.x + p2.x) / 2 - p2.x = -((p1.x + p2.x) / 2 - p1.x)
      ring
    · show (p1.y + p2.y) / 2 - p2.y = -((p1.y + p2.y) / 2 - p1.y)
      ring
  refine ⟨hmid, ?_, ?_⟩
  · unfold Particle.calculate_force
    simp only [List.foldl_cons, List.foldl_nil]
    have hzadd : ∀ v : Vector2D, (Vector2D.add ⟨0, 0⟩ v) = v := by
      intro v
      unfold Vector2D.add
      ext <;> simp
    rw [hzadd]
    have := hmid
    unfold Vector2D.add at this ⊢
    rw [this]
    unfold Vector2D.mul
    ext <;> simp
  · apply midpoint_field_cancel
    · norm_num
    · norm_num

/-- auxLookup on the empty dict. -/
theorem auxLookup_nil {α : Type} (k : String) :
    auxLookup k ([] : AuxMap α) = none := rfl

/-- auxLookup unfolded one entry at a time. -/
theorem auxLookup_cons {α : Type} (k : String) (kv : String × α)
    (rest : AuxMap α) :
    auxLookup k (kv :: rest) =
      if kv.1 = k then some kv.2 else auxLookup k rest := rfl

/-- Lookup distributes over list append, preferring the left list. -/
theorem auxLookup_append {α : Type} (k : String) (a b : AuxMap α) :
    auxLookup k (a ++ b) =
      match auxLookup k a with
      | some v => some v
      | none => auxLookup k b := by
  induction a with
  | nil => rfl
  | cons kv rest ih =>
    rw [List.cons_append, auxLookup_cons, auxLookup_cons]
    by_cases h : kv.1 = k
    · rw [if_pos h, if_pos h]
    · rw [if_neg h, if_neg h, ih]

/-- Lookup in the value-replaced base of a dict update. -/
theorem auxLookup_replaced {α : Type} (k : String) (base new : AuxMap α) :
    auxLookup k (base.map
        (fun kv => (kv.1, (auxLookup kv.1 new).getD kv.2))) =
      (auxLookup k base).map (fun v => (auxLookup k new).getD v) := by
  induction base with
  | nil => rfl
  | cons kv rest ih =>
    obtain ⟨k1, v1⟩ := kv
    by_cases h : k1 = k
    · subst h
      simp [List.map_cons, auxLookup_cons, ih]
    · simp [List.map_cons, auxLookup_cons, h, ih]

/-- Lookup in the appended part of a dict update: entries whose key already
occurs in the base have been filtered out. -/
theorem auxLookup_filtered {α : Type} (k : String) (base new : AuxMap α) :
    auxLookup k (new.filter (fun kv => (auxLookup kv.1 base).isNone)) =
      if (auxLookup k base).isNone then auxLookup k new else none := by
  induction new with
  | nil => simp [auxLookup_nil]
  | cons kv rest ih =>
    obtain ⟨k1, v1⟩ := kv
    by_cases hb : (auxLookup k1 base).isNone
    · by_cases h : k1 = k
      · subst h
        simp [List.filter_cons, hb, auxLookup_cons, ih]
      · simp [List.filter_cons, hb, auxLookup_cons, h, ih]
    · by_cases h : k1 = k
      · subst h
        simp [List.filter_cons, hb, auxLookup_cons, ih]
      · simp [List.filter_cons, hb, auxLookup_cons, h, ih]

/-- Python dict.update lookup semantics: the new dict wins on collisions and
the base dict answers otherwise. -/
theorem auxLookup_dictUpdate {α : Type} (k : String) (base new : AuxMap α) :
    auxLookup k (dictUpdate base new) =
      match auxLookup k new with
      | some v => some v
      | none => auxLookup k base := by
  unfold dictUpdate
  rw [auxLookup_append, auxLookup_replaced, auxLookup_filtered]
  cases hb : auxLookup k base with
  | none =>
    cases hn : auxLookup k new with
    | none => simp
    | some w => simp
  | some v =>
    cases hn : auxLookup k new with
    | none => simp
    | some w => simp

/-- C6: one tick runs the logic elements strictly in sequence; the element
appended at the end runs at the position produced by all earlier elements
(positions emitted earlier were adopted immediately), its emitted position is
adopted, and its auxiliary entries are merged with dict.update semantics, in
which the later element wins on any key collision; Entity.logic is exactly
this fold started at the entity position with an empty dict. -/
theorem entity_logic_sequential :
    (∀ (α : Type) (elems : List (LogicElem α)) (e : LogicElem α)
        (ctx : AuxMap α) (st : Point2D × AuxMap α),
      Entity.logicFold (elems ++ [e]) ctx st =
        ((e.run (Entity.logicFold elems ctx st).1 ctx).newPos.getD
            (Entity.logicFold elems ctx st).1,
         dictUpdate (Entity.logicFold elems ctx st).2
           (e.run (Entity.logicFold elems ctx st).1 ctx).aux)) ∧
    (∀ (α : Type) (k : String) (m1 m2 : AuxMap α),
      auxLookup k (dictUpdate m1 m2) =
        match auxLookup k m2 with
        | some v => some v
        | none => auxLookup k m1) ∧
    (∀ (α : Type) (e : Entity α) (ctx : AuxMap α),
      (e.logic ctx).1.position =
        (Entity.logicFold e.logic_elements ctx (e.position, [])).1 ∧
      (e.logic ctx).2 =
        (Entity.logicFold e.logic_elements ctx (e.position, [])).2) := by
  refine ⟨?_, fun α k m1 m2 => auxLookup_dictUpdate k m1 m2,
    fun α e ctx => ⟨rfl, rfl⟩⟩
  intro α elems e ctx st
  unfold Entity.logicFold
  rw [List.foldl_append]
  rfl

/-- C7: adding a static entity appends it to the static collection and sets
the render-cache dirty flag (each add sets it, so exactly once per add);
adding a dynamic entity leaves the flag alone; a frame rebuilds (draws) the
static layer exactly when the flag was set, clears the flag there, never
invokes update on a static object (the update log is exactly the dynamic
list, each entity once and in order), and maps update over every dynamic
entity exactly once while leaving the static collection untouched. -/
theorem static_dynamic_partition (w : SimulationWindow) (obj : StaticObj)
    (p : Particle) (dt : ℝ) :
    (w.add_object obj).objects = w.objects ++ [obj] ∧
    (w.add_object obj).static_layer_dirty = true ∧
    (w.add_object obj).dynamic_objects = w.dynamic_objects ∧
    (w.add_dynamic_object p).dynamic_objects = w.dynamic_objects ++ [p] ∧
    (w.add_dynamic_object p).static_layer_dirty = w.static_layer_dirty ∧
    (w.frame dt).2.updated = w.dynamic_objects ∧
    (w.frame dt).2.rebuilt_static = w.static_layer_dirty ∧
    (w.frame dt).2.static_draws =
      (if w.static_layer_dirty then w.objects else []) ∧
    (w.frame dt).1.objects = w.objects ∧
    (w.frame dt).1.static_layer_dirty = false ∧
    (w.frame dt).1.dynamic_objects =
      w.dynamic_objects.map (fun q => (q.update dt).1) := by
  refine ⟨rfl, rfl, rfl, rfl, rfl, rfl, rfl, rfl, rfl, ?_, ?_⟩
  · show (if w.static_layer_dirty then false else w.static_layer_dirty) = false
    cases h : w.static_layer_dirty <;> simp
  · show (w.dynamic_objects.map (fun q => q.update dt)).map Prod.fst =
      w.dynamic_objects.map (fun q => (q.update dt).1)
    rw [List.map_map]
    rfl

/-- C9 counterexample: an entity with one presentation element and no logic
elements; its core update invokes that presentation element (the draw trace
of the tick is a singleton, not empty). -/
theorem entity_update_draws_counterexample :
    (sampleEntity.update []).2.2 = [⟨⟨0⟩, ⟨0, 0⟩, [], []⟩] ∧
    (sampleEntity.update []).2.2 ≠ [] := by
  constructor
  · rfl
  · have h1 : (sampleEntity.update []).2.2 = [⟨⟨0⟩, ⟨0, 0⟩, [], []⟩] := rfl
    rw [h1]
    simp

/-- C9 amended: Entity.update does invoke the presentation elements during
the core tick: after all logic elements have run it calls draw exactly once
on each visual element, in order, passing the final adopted position and the
merged auxiliary data of the tick (Entity.logic itself draws nothing; only
the final position and the data map are handed over). -/
theorem entity_update_invokes_visuals (α : Type) (e : Entity α)
    (ctx : AuxMap α) :
    (e.update ctx).2.2 =
      e.visual_elements.map
        (fun v => ⟨v, (e.logic ctx).1.position, (e.logic ctx).2, ctx⟩) := by
  rfl

/-- C4 counterexample: constructing a Charge with permittivity -1 (≤ 0) and a
ParticleLogic with slow factor -5 and mass -3 (both ≤ 0) succeeds and returns
fully-built objects instead of raising InvalidParameter. -/
theorem constructors_no_validation_counterexample :
    Charge.init 1 ⟨0, 0⟩ (-1) = .ok ⟨1, ⟨0, 0⟩, -1⟩ ∧
    ParticleLogic.initE ⟨0, 0⟩ ([] : List Unit) (-5) (-3) 0 =
      .ok ⟨⟨0, 0⟩, [], -5, -3, 0⟩ := by
  constructor
  · have hc : ¬(4 * Real.pi * (-1 : ℝ) = 0) := by
      have hpi := Real.pi_pos
      intro h
      nlinarith
    unfold Charge.init
    rw [if_neg hc]
  · rfl

/-- C4 amended: no constructor validates its parameters and no
InvalidParameter error exists. Body/particle construction (ParticleLogic)
accepts any mass and timeScale, including values ≤ 0, and always returns a
fully-built object; Charge construction succeeds for every permittivity
except exactly 0, where the computation of k = 1/(4*pi*eps) raises
ZeroDivisionError (not InvalidParameter). -/
theorem constructors_no_validation (v : ℝ) (pos : Point2D) (perm : ℝ)
    (vel : Vector2D) (chs : List Unit) (slow mass q : ℝ) :
    (perm ≠ 0 → Charge.init v pos perm = .ok ⟨v, pos, perm⟩) ∧
    (perm = 0 → Charge.init v pos perm = .error .zeroDivision) ∧
    ParticleLogic.initE vel chs slow mass q =
      .ok ⟨vel, chs, slow, mass, q⟩ := by
  refine ⟨?_, ?_, rfl⟩
  · intro h
    have hc : ¬(4 * Real.pi * perm = 0) := by
      intro hc
      rcases mul_eq_zero.mp hc with h1 | h2
      · rcases mul_eq_zero.mp h1 with h3 | h4
        · norm_num at h3
        · exact Real.pi_ne_zero h4
      · exact h h2
    unfold Charge.init
    rw [if_neg hc]
  · intro h
    have hc : 4 * Real.pi * perm = 0 := by
      rw [h]
      ring
    unfold Charge.init
    rw [if_pos hc]

/-- Witness for the amended C4 at concrete permittivities -1 and 0. -/
theorem constructors_no_validation_witness :
    ((-1 : ℝ) ≠ 0 ∧ Charge.init 2 ⟨1, 1⟩ (-1) = .ok ⟨2, ⟨1, 1⟩, -1⟩) ∧
    ((0 : ℝ) = 0 ∧ Charge.init 3 ⟨1, 1⟩ 0 = .error .zeroDivision) :=
  ⟨⟨by norm_num,
    (constructors_no_validation 2 ⟨1, 1⟩ (-1) ⟨0, 0⟩ ([] : List Unit) 1 1 1).1
      (by norm_num)⟩,
   ⟨rfl,
    (constructors_no_validation 3 ⟨1, 1⟩ 0 ⟨0, 0⟩ ([] : List Unit) 1 1 1).2.1
      rfl⟩⟩

/-- The dynamic list after a frame is the element-wise update of the old
list (a projection fact of the frame). -/
theorem frame_dynamic_objects (w : SimulationWindow) (dt : ℝ) :
    (w.frame dt).1.dynamic_objects =
      (w.dynamic_objects.map (fun p => p.update dt)).map Prod.fst := rfl

/-- The update log of a frame is exactly the previous dynamic list. -/
theorem frame_updated_log (w : SimulationWindow) (dt : ℝ) :
    (w.frame dt).2.updated = w.dynamic_objects := rfl

/-- C3 amended: a Body that leaves the bound is detected (its update returns
False exactly when the moved position violates the bound, and it is then not
rendered), but the run loop never removes it: the dynamic set after a frame
is exactly the element-wise update of the previous dynamic set, every entry
of which is updated again on every subsequent frame; dynamic entities leave
the set only through the explicit clear operation, which also leaves the
static collection untouched. -/
theorem frame_never_removes (w : SimulationWindow) (dt : ℝ) (p : Particle) :
    (w.frame dt).1.dynamic_objects =
      w.dynamic_objects.map (fun q => (q.update dt).1) ∧
    (w.frame dt).2.updated = w.dynamic_objects ∧
    w.clear_dynamic_objects.dynamic_objects = [] ∧
    w.clear_dynamic_objects.objects = w.objects ∧
    ((p.update dt).2 = false ↔ (p.move p.calculate_force dt).escaped) := by
  refine ⟨?_, rfl, rfl, rfl, ?_⟩
  · rw [frame_dynamic_objects, List.map_map]
    rfl
  · unfold Particle.update
    by_cases h : (p.move p.calculate_force dt).escaped
    · simp [h]
    · simp [h]

/-- C3 counterexample: an electron spawned at x = 20000 (far beyond the
800 + radius bound) with velocity 100000 is detected as out of bounds on the
first frame (it is not rendered), yet it is still in the dynamic set after
that frame, update is invoked on it again by the second frame, and that
second update advances its position from 20001 to 20002 — it is neither
removed within a bounded number of ticks nor spared further updates. -/
theorem run_loop_no_removal_counterexample :
    (escWindow.frame 1).2.rendered = [] ∧
    (escWindow.frame 1).1.dynamic_objects.length = 1 ∧
    ((escWindow.frame 1).1.frame 1).2.updated.length = 1 ∧
    ((escWindow.frame 1).1.frame 1).1.dynamic_objects.map
      (fun p => p.position.x) = [20002] := by
  have hforce1 : escParticle.calculate_force = ⟨0, 0⟩ :=
    calculate_force_nil _ rfl
  have hmove1 := move_zero_force escParticle 1
  have hpos1 : (escParticle.move ⟨0, 0⟩ 1).position = ⟨20001, 0⟩ := by
    rw [hmove1.2]
    have h1 : escParticle.position = ⟨20000, 0⟩ := rfl
    have h2 : escParticle.velocity = ⟨100000, 0⟩ := rfl
    have h3 : escParticle.slow_factor = 100000 := rfl
    rw [h1, h2, h3]
    ext <;> norm_num
  have hvel1 : (escParticle.move ⟨0, 0⟩ 1).velocity = ⟨100000, 0⟩ := hmove1.1
  have hr1 : (escParticle.move ⟨0, 0⟩ 1).radius = 7 := rfl
  have hesc1 : (escParticle.move ⟨0, 0⟩ 1).escaped := by
    unfold Particle.escaped
    right; left
    rw [hpos1, hr1]
    norm_num
  have hupd1 : escParticle.update 1 = (escParticle.move ⟨0, 0⟩ 1, false) := by
    unfold Particle.update
    rw [hforce1, if_pos hesc1]
  have hframe1 : (escWindow.frame 1).1.dynamic_objects =
      [escParticle.move ⟨0, 0⟩ 1] := by
    rw [frame_dynamic_objects]
    show ([escParticle].map (fun p => p.update 1)).map Prod.fst = _
    rw [List.map_cons, List.map_nil, hupd1, List.map_cons, List.map_nil]
  have hrend1 : (escWindow.frame 1).2.rendered = [] := by
    show (([escParticle].map (fun p => p.update 1)).filter Prod.snd).map
      Prod.fst = []
    rw [List.map_cons, List.map_nil, hupd1]
    rfl
  have hmove2 := move_zero_force (escParticle.move ⟨0, 0⟩ 1) 1
  have hs2 : (escParticle.move ⟨0, 0⟩ 1).slow_factor = 100000 := rfl
  have hpos2 : ((escParticle.move ⟨0, 0⟩ 1).move ⟨0, 0⟩ 1).position =
      ⟨20002, 0⟩ := by
    rw [hmove2.2, hpos1, hvel1, hs2]
    ext <;> norm_num
  have hr2 : ((escParticle.move ⟨0, 0⟩ 1).move ⟨0, 0⟩ 1).radius = 7 := rfl
  have hesc2 : ((escParticle.move ⟨0, 0⟩ 1).move ⟨0, 0⟩ 1).escaped := by
    unfold Particle.escaped
    right; left
    rw [hpos2, hr2]
    norm_num
  have hforce2 : (escParticle.move ⟨0, 0⟩ 1).calculate_force = ⟨0, 0⟩ :=
    calculate_force_nil _ rfl
  have hupd2 : (escParticle.move ⟨0, 0⟩ 1).update 1 =
      ((escParticle.move ⟨0, 0⟩ 1).move ⟨0, 0⟩ 1, false) := by
    unfold Particle.update
    rw [hforce2, if_pos hesc2]
  refine ⟨hrend1, ?_, ?_, ?_⟩
  · rw [hframe1]
    rfl
  · rw [frame_updated_log, hframe1]
    rfl
  · rw [frame_dynamic_objects, hframe1, List.map_cons, List.map_nil, hupd2,
      List.map_cons, List.map_nil, List.map_cons, List.map_nil]
    show [((escParticle.move ⟨0, 0⟩ 1).move ⟨0, 0⟩ 1).position.x] = [(20002 : ℝ)]
    rw [hpos2]

end EField

end
